import Mathlib

/-!
Verification development for the hookah-master-bot data-access layer.

The repository contains two variants of the same module:
  * the legacy variant        src/database/database.py
  * the parameterized variant src/src/hookah_master_helper/database/database.py

Both expose a scoped connection manager (`Database`, a Python context
manager built on sqlite3) and a query executor (`DatabaseExecutor`) with
operations create_table / fetchone / fetchmany (legacy) / fetchall
(parameterized) / update / insert.

The embedding below follows the Python source line by line:
  * SQL text construction is embedded as pure string functions
    (`Legacy.fetchoneQuery`, `Param.insertQuery`, ...), mirroring the
    f-string / join code of the source.
  * The stateful behaviour is embedded as explicit state passing over
    `DBState`.  The sqlite3 engine itself (an external library) is
    modelled only for the statement shapes the executor emits:
    CREATE TABLE IF NOT EXISTS, INSERT, UPDATE with equality conditions,
    and plain SELECTs.  Column projection by the `fields` argument and
    GROUP BY aggregation are not modelled (no claim depends on them);
    a SELECT result is the list of matching full rows.
  * Raw SQL fragments that the legacy variant receives as strings
    (a WHERE fragment, a SET fragment) are embedded by the function the
    engine would evaluate them to: a row predicate `Row → Bool`
    resp. a row transformer `Row → Row`.
-/

set_option autoImplicit false

deriving instance DecidableEq for Except

namespace HookahDB

/-- A sqlite cell value (the repo only stores TEXT and INTEGER data). -/
inductive Value where
  | int (n : Int)
  | text (s : String)
  | null
  deriving DecidableEq

/-- A row is an ordered tuple of column values (the repo has no typed
row model; callers interpret positions by convention). -/
abbrev Row := List Value

/-- The exceptions the Python layer can raise.  `runtimeError` is the
usage error raised by `ensure_context`; `valueError` is raised by
`create_table` on an empty schema and by the parameterized `update` on
an integrity failure; `integrityError`, `operationalError` and
`programmingError` model the corresponding `sqlite3` exception classes;
`attributeError` models Python's `AttributeError`. -/
inductive DBError where
  | runtimeError (msg : String)
  | valueError (msg : String)
  | integrityError (msg : String)
  | operationalError (msg : String)
  | programmingError (msg : String)
  | attributeError (msg : String)
  deriving DecidableEq

/-- The connection attribute of a `Database` object.
`initial`: `self.connection is None` (state after `__init__`, before the
first `__enter__`).  `opened`: inside a `with` block, live connection.
`closedAfter`: after `__exit__` — the source closes the connection but
never resets the attribute to `None`, so the object holds a *closed*
sqlite3 connection. -/
inductive ConnState where
  | initial
  | opened
  | closedAfter
  deriving DecidableEq

/-- Whether no live connection is open (the "closed" state of the spec's
two-state machine; both `initial` and `closedAfter` qualify). -/
def connClosed : ConnState → Bool
  | .opened => false
  | _ => true

/-- Lifecycle events of the context manager protocol. -/
inductive ConnEvent where
  | enterEv
  | exitEv
  deriving DecidableEq

/-- Effect of `__enter__` / `__exit__` on the connection attribute.
`__enter__` assigns a fresh live connection; `__exit__` runs
`self.connection.close()` unconditionally and leaves the attribute set. -/
def connStep (_s : ConnState) : ConnEvent → ConnState
  | .enterEv => .opened
  | .exitEv => .closedAfter

/-- A full pass through a `with Database(...)` block: Python calls
`__enter__`, runs the body, and calls `__exit__` whether or not the body
raised — the `bodyRaised` flag cannot influence the result. -/
def runScope (s : ConnState) (bodyRaised : Bool) : ConnState :=
  match bodyRaised with
  | true => connStep (connStep s .enterEv) .exitEv
  | false => connStep (connStep s .enterEv) .exitEv

/-! ### The table store (model of the sqlite3 engine's state) -/

/-- `True` when the second character list starts with the first. -/
def leadsWith : List Char → List Char → Bool
  | [], _ => true
  | _ :: _, [] => false
  | p :: ps, s :: ss => decide (p = s) && leadsWith ps ss

/-- `True` when the first character list occurs inside the second. -/
def occursIn (pat : List Char) : List Char → Bool
  | [] => leadsWith pat []
  | s :: ss => leadsWith pat (s :: ss) || occursIn pat ss

/-- `True` when a sqlite column type declaration carries a uniqueness
constraint (contains `UNIQUE` or `PRIMARY KEY`). -/
def typeHasUniqueMarker (ty : String) : Bool :=
  occursIn "UNIQUE".data ty.data || occursIn "PRIMARY KEY".data ty.data

/-- Indices of the columns of a schema that carry a uniqueness
constraint. -/
def uniqueColsOf (columns : List (String × String)) : List Nat :=
  (List.range columns.length).filter fun i =>
    match columns.get? i with
    | some p => typeHasUniqueMarker p.2
    | none => false

/-- One table of the store: its schema (column name / declared type, in
declaration order), the indices of its unique columns, and its rows. -/
structure Table where
  schema : List (String × String)
  uniqueCols : List Nat
  rows : List Row
  deriving DecidableEq

/-- The database file's contents: named tables. -/
abbrev Store := List (String × Table)

/-- Look a table up by name. -/
def Store.find? : Store → String → Option Table
  | [], _ => none
  | (n, t) :: rest, k => if n = k then some t else Store.find? rest k

/-- Replace the table named `k` (used by INSERT / UPDATE effects). -/
def Store.setT : Store → String → Table → Store
  | [], _, _ => []
  | (n, t) :: rest, k, t' =>
      if n = k then (k, t') :: Store.setT rest k t'
      else (n, t) :: Store.setT rest k t'

/-- The whole machine state: the connection attribute of the
`Database` object and the table store behind it. -/
structure DBState where
  conn : ConnState
  store : Store
  deriving DecidableEq

/-- The guard path of `Database.execute`: the `ensure_context` decorator
raises `RuntimeError` when `self.connection is None`; with a connection
object that has been closed (`closedAfter`), the decorator passes and
`self.cursor.execute` raises `sqlite3.ProgrammingError` instead. -/
def execGuard : ConnState → Option DBError
  | .initial => some (.runtimeError "Database must be used within a \x27with\x27 statement.")
  | .closedAfter => some (.programmingError "Cannot operate on a closed database.")
  | .opened => none

/-! ### Query text builders (verbatim from the Python string code) -/

namespace Legacy

/-- SQL text built by the legacy `fetchone` (source lines 99-104):
`if not fields: fields = '*'` treats both `None` and the empty string as
"all columns"; `if where:` likewise skips the clause for `None` and for
the empty string. -/
def fetchoneQuery (table_name : String) (fields : Option String) (whereS : Option String) : String :=
  let fieldsStr :=
    match fields with
    | none => "*"
    | some s => if s = "" then "*" else s
  let query := s!"SELECT {fieldsStr} FROM {table_name}"
  match whereS with
  | none => query
  | some w => if w = "" then query else query ++ s!" WHERE {w}"

end Legacy

namespace Param

/-- SQL text built by the parameterized `fetchone` (source lines 44-61):
`if fields is None` selects `*`; otherwise the column names are joined
with `", "` — an empty list joins to the empty string.  `where`, when
present, is a `(condition_str, values)` pair and the condition string is
appended (a tuple is truthy in Python whenever it is non-empty, and this
`where` is always a pair). -/
def fetchoneQuery (table_name : String) (fields : Option (List String)) (whereC : Option (String × List Value)) : String :=
  let fields_str :=
    match fields with
    | none => "*"
    | some fs => String.intercalate ", " fs
  let query := s!"SELECT {fields_str} FROM {table_name}"
  match whereC with
  | none => query
  | some w => query ++ s!" WHERE {w.1}"

/-- SQL text built by the parameterized `insert` (source lines 114-121):
one `?` placeholder per value, so the text depends on the *number* of
values but never on their contents. -/
def insertQuery (table_name : String) (values : List Value) (fields : Option (List String)) : String :=
  match fields with
  | some fs =>
      let fields_str := String.intercalate ", " fs
      let placeholders := String.intercalate ", " (List.replicate values.length "?")
      s!"INSERT INTO {table_name} ({fields_str}) VALUES ({placeholders})"
  | none =>
      let placeholders := String.intercalate ", " (List.replicate values.length "?")
      s!"INSERT INTO {table_name} VALUES ({placeholders})"

/-- SQL text built by the parameterized `update` (source lines 82-99):
`field = ?` pairs joined with `", "` for SET and with `" AND "` for
WHERE; `if where:` skips the clause for `None` and for an empty list. -/
def updateQuery (table_name : String) (values : List (String × Value)) (whereC : Option (List (String × Value))) : String :=
  if whereC.getD [] = [] then
    "UPDATE " ++ table_name ++ " SET " ++
      String.intercalate ", " (values.map fun p => p.1 ++ " = ?")
  else
    "UPDATE " ++ table_name ++ " SET " ++
      String.intercalate ", " (values.map fun p => p.1 ++ " = ?") ++
      " WHERE " ++
      String.intercalate " AND " ((whereC.getD []).map fun p => p.1 ++ " = ?")

/-- Parameter tuple bound by the parameterized `update` (source lines
91-102): the assignment values followed by the condition values. -/
def updateParams (values : List (String × Value)) (whereC : Option (List (String × Value))) : List Value :=
  let vals := values.map fun p => p.2
  match whereC with
  | none => vals
  | some ws => if ws = [] then vals else vals ++ ws.map fun p => p.2

end Param

/-! ### Engine helpers (model of sqlite3 statement semantics) -/

/-- `True` when inserting `row` into `t` violates a uniqueness
constraint: some unique column already holds `row`'s value there. -/
def insertConflicts (t : Table) (row : Row) : Bool :=
  t.uniqueCols.any fun i => t.rows.any fun r => decide (r.get? i = row.get? i)

/-- `True` when a rows list violates a uniqueness constraint: some
unique column holds the same value in two distinct rows. -/
def violatesUniqueCols (uniqueCols : List Nat) (rows : List Row) : Bool :=
  uniqueCols.any fun i => !(decide ((rows.map fun r => r.get? i).Nodup))

/-- Index of a column name in a schema. -/
def colIndex? (schema : List (String × String)) (f : String) : Option Nat :=
  (List.range schema.length).find? fun i =>
    decide ((schema.get? i).map Prod.fst = some f)

/-- Index of a column name in an explicit field list. -/
def fieldIndex? (fs : List String) (f : String) : Option Nat :=
  (List.range fs.length).find? fun i => decide (fs.get? i = some f)

/-- Engine effect of a named-columns INSERT: the stored row follows
schema order, columns not named get NULL. -/
def buildRowFromFields (schema : List (String × String)) (fs : List String) (vals : Row) : Row :=
  schema.map fun c =>
    match fieldIndex? fs c.1 with
    | some i => (vals.get? i).getD .null
    | none => .null

/-- Python text of a value, as it appears inside the conflict message
the executor returns (the source interpolates the raw `values`). -/
def renderValue : Value → String
  | .int n => toString n
  | .text s => "\x27" ++ s ++ "\x27"
  | .null => "NULL"

/-- Python text of a value tuple. -/
def renderTuple (r : Row) : String :=
  "(" ++ String.intercalate ", " (r.map renderValue) ++ ")"

/-- Evaluation of an optional WHERE fragment on a row; an absent
condition matches every row. -/
def condHolds (c : Option (Row → Bool)) (r : Row) : Bool :=
  match c with
  | none => true
  | some f => f r

/-- Rows of `t` the engine would return for a SELECT with the given
optional WHERE condition. -/
def matchingRows (t : Table) (c : Option (Row → Bool)) : List Row :=
  t.rows.filter (condHolds c)

/-- Engine effect of one `field = ?` assignment on a row. -/
def setCol (schema : List (String × String)) (r : Row) (f : String) (v : Value) : Row :=
  match colIndex? schema f with
  | some i => r.set i v
  | none => r

/-- Engine effect of the parameterized SET clause on a row. -/
def applyPairs (schema : List (String × String)) (values : List (String × Value)) (r : Row) : Row :=
  values.foldl (fun acc p => setCol schema acc p.1 p.2) r

/-- Evaluation of the parameterized WHERE clause (`f1 = ? AND f2 = ?`)
on a row; an empty pair list holds vacuously. -/
def pairsHold (schema : List (String × String)) (ws : List (String × Value)) (r : Row) : Bool :=
  ws.all fun p =>
    match colIndex? schema p.1 with
    | some i => decide (r.get? i = some p.2)
    | none => false

/-- Engine effect of an UPDATE on the rows list: rows satisfying the
condition are transformed, the others are returned unchanged. -/
def condMap (c : Row → Bool) (f : Row → Row) (rows : List Row) : List Row :=
  rows.map fun r => if c r then f r else r

/-- The row actually stored by an INSERT: the values themselves for an
all-columns insert, or the schema-ordered row for a named-columns
insert. -/
def storedRow (t : Table) (values : Row) (fields : Option (List String)) : Row :=
  match fields with
  | none => values
  | some fs => buildRowFromFields t.schema fs values

/-- Arity check the engine performs on an INSERT: an all-columns insert
needs one value per schema column; a named-columns insert needs one
value per named column. -/
def insertArityOk (t : Table) (values : Row) (fields : Option (List String)) : Bool :=
  match fields with
  | none => decide (values.length = t.schema.length)
  | some fs => decide (fs.length = values.length)

/-! ### Executor operations (explicit state passing) -/

/-- `DatabaseExecutor.create_table` — its body is character-identical in
both variants (legacy lines 59-64, parameterized lines 36-42): raises
`ValueError` on an empty schema before any SQL is built or executed;
otherwise executes `CREATE TABLE IF NOT EXISTS`, whose engine effect is
to create an empty table only when no table of that name exists. -/
def create_table (st : DBState) (table_name : String) (columns : List (String × String)) :
    DBState × Except DBError Unit :=
  if columns = [] then
    (st, .error (.valueError "Columns dictionary cannot be empty."))
  else
    match execGuard st.conn with
    | some e => (st, .error e)
    | none =>
        match st.store.find? table_name with
        | some _ => (st, .ok ())
        | none =>
            ({ st with store := (table_name, ⟨columns, uniqueColsOf columns, []⟩) :: st.store },
             .ok ())

namespace Legacy

/-- Legacy `DatabaseExecutor.fetchone` (lines 99-107): builds a SELECT
(see `Legacy.fetchoneQuery`), executes it, and returns
`cursor.fetchone()` — the first matching row, or `None`.  The raw WHERE
fragment is embedded as the row predicate the engine evaluates it to;
column projection by `fields` is not modelled. -/
def fetchone (st : DBState) (table_name : String) (whereC : Option (Row → Bool)) :
    DBState × Except DBError (Option Row) :=
  match execGuard st.conn with
  | some e => (st, .error e)
  | none =>
      match st.store.find? table_name with
      | none => (st, .error (.operationalError s!"no such table: {table_name}"))
      | some t => (st, .ok (matchingRows t whereC).head?)

/-- Legacy `DatabaseExecutor.fetchmany` (lines 148-159): builds the same
SELECT and returns `cursor.fetchmany(size=10000)` — at most the first
10,000 matching rows.  GROUP BY is not modelled. -/
def fetchmany (st : DBState) (table_name : String) (whereC : Option (Row → Bool)) :
    DBState × Except DBError (List Row) :=
  match execGuard st.conn with
  | some e => (st, .error e)
  | none =>
      match st.store.find? table_name with
      | none => (st, .error (.operationalError s!"no such table: {table_name}"))
      | some t => (st, .ok ((matchingRows t whereC).take 10000))

/-- Legacy `DatabaseExecutor.update` (lines 194-199): builds
`UPDATE {table} SET {values}` plus an optional WHERE fragment, executes
it and commits; it returns `None` and catches nothing, so any sqlite
error propagates.  The raw SET fragment is embedded as the row
transformer the engine evaluates it to, the raw WHERE fragment as a row
predicate. -/
def update (st : DBState) (table_name : String) (assigns : Row → Row) (whereC : Option (Row → Bool)) :
    DBState × Except DBError Unit :=
  match execGuard st.conn with
  | some e => (st, .error e)
  | none =>
      match st.store.find? table_name with
      | none => (st, .error (.operationalError s!"no such table: {table_name}"))
      | some t =>
          let newRows := condMap (condHolds whereC) assigns t.rows
          if violatesUniqueCols t.uniqueCols newRows then
            (st, .error (.integrityError "UNIQUE constraint failed"))
          else
            (⟨st.conn, st.store.setT table_name { t with rows := newRows }⟩, .ok ())

/-- Legacy `DatabaseExecutor.insert` (lines 235-246): builds
`INSERT INTO {table} [({fields})] VALUES {values}`, executes it inside
`try`, and on `sqlite3.IntegrityError` returns the conflict string
`f\x27{values} already exists\n\x27` without committing; on success it
commits and returns `None`.  Other sqlite errors propagate.  The raw
`values` literal is embedded as the row it denotes, rendered back to
text for the conflict message. -/
def insert (st : DBState) (table_name : String) (values : Row) (fields : Option (List String)) :
    DBState × Except DBError (Option String) :=
  match execGuard st.conn with
  | some e => (st, .error e)
  | none =>
      match st.store.find? table_name with
      | none => (st, .error (.operationalError s!"no such table: {table_name}"))
      | some t =>
          if insertArityOk t values fields then
            if insertConflicts t (storedRow t values fields) then
              (st, .ok (some (renderTuple values ++ " already exists\n")))
            else
              (⟨st.conn,
                st.store.setT table_name
                  { t with rows := t.rows ++ [storedRow t values fields] }⟩, .ok none)
          else
            (st, .error (.operationalError "table has a different number of columns"))

end Legacy

namespace Param

/-- Parameterized `DatabaseExecutor.fetchall` (lines 67-80): builds a
SELECT (optionally `SELECT DISTINCT`), executes it and returns
`cursor.fetchall()` — every matching row.  GROUP BY and column
projection are not modelled. -/
def fetchall (st : DBState) (table_name : String) (whereC : Option (Row → Bool)) (distinct : Bool) :
    DBState × Except DBError (List Row) :=
  match execGuard st.conn with
  | some e => (st, .error e)
  | none =>
      match st.store.find? table_name with
      | none => (st, .error (.operationalError s!"no such table: {table_name}"))
      | some t =>
          let rs := matchingRows t whereC
          (st, .ok (if distinct then rs.dedup else rs))

/-- Parameterized `DatabaseExecutor.update` (lines 82-112): builds the
parameterized UPDATE (see `Param.updateQuery`), executes it and commits;
`sqlite3.IntegrityError` is converted to `ValueError`.  On the success
path the source runs `cursor = self.execute(...)` — but
`Database.execute` (lines 26-31) returns `None`, so the final
`return cursor.rowcount` raises `AttributeError` after the commit has
already happened; the `except` clause only catches `IntegrityError`, so
the `AttributeError` propagates. -/
def update (st : DBState) (table_name : String) (values : List (String × Value)) (whereC : Option (List (String × Value))) :
    DBState × Except DBError Int :=
  match execGuard st.conn with
  | some e => (st, .error e)
  | none =>
      match st.store.find? table_name with
      | none => (st, .error (.operationalError s!"no such table: {table_name}"))
      | some t =>
          if values = [] then (st, .error (.operationalError "incomplete input"))
          else if !(values.all fun p => (colIndex? t.schema p.1).isSome) then
            (st, .error (.operationalError "no such column"))
          else
            let ws := whereC.getD []
            if !(ws.all fun p => (colIndex? t.schema p.1).isSome) then
              (st, .error (.operationalError "no such column"))
            else
              let newRows := condMap (pairsHold t.schema ws) (applyPairs t.schema values) t.rows
              if violatesUniqueCols t.uniqueCols newRows then
                (st, .error (.valueError s!"Failed to update {table_name}: UNIQUE constraint failed"))
              else
                (⟨st.conn, st.store.setT table_name { t with rows := newRows }⟩,
                 .error (.attributeError "\x27NoneType\x27 object has no attribute \x27rowcount\x27"))

/-- Parameterized `DatabaseExecutor.insert` (lines 114-129): builds the
parameterized INSERT (see `Param.insertQuery`), executes it inside
`try`, and on `sqlite3.IntegrityError` returns the conflict string
`f\x27{values} already exists: {e}\n\x27` without committing; on success
it commits and returns `None`. -/
def insert (st : DBState) (table_name : String) (values : Row) (fields : Option (List String)) :
    DBState × Except DBError (Option String) :=
  match execGuard st.conn with
  | some e => (st, .error e)
  | none =>
      match st.store.find? table_name with
      | none => (st, .error (.operationalError s!"no such table: {table_name}"))
      | some t =>
          if insertArityOk t values fields then
            if insertConflicts t (storedRow t values fields) then
              (st, .ok (some (renderTuple values ++ " already exists: UNIQUE constraint failed\n")))
            else
              (⟨st.conn,
                st.store.setT table_name
                  { t with rows := t.rows ++ [storedRow t values fields] }⟩, .ok none)
          else
            (st, .error (.operationalError "table has a different number of columns"))

end Param

/-! ### Concrete fixtures (the scenario of spec section 8) -/

/-- The `tobaccos` schema of the spec scenario, with a unique mark. -/
def tobaccoSchema : List (String × String) :=
  [("mark", "TEXT UNIQUE"), ("aroma", "TEXT"), ("flavour", "TEXT"), ("potency", "INTEGER")]

/-- The scenario row `("Brand A", "mint", "sweet", 3)`. -/
def rowA : Row := [.text "Brand A", .text "mint", .text "sweet", .int 3]

/-- A different row sharing `rowA`'s unique mark `"Brand A"`. -/
def rowA2 : Row := [.text "Brand A", .text "apple", .text "sour", .int 5]

/-- A freshly created, empty `tobaccos` table. -/
def tobaccoTable : Table := ⟨tobaccoSchema, uniqueColsOf tobaccoSchema, []⟩

/-- Store holding the empty `tobaccos` table. -/
def tobaccoStore : Store := [("tobaccos", tobaccoTable)]

/-- State before the first `__enter__`: the connection attribute is
still `None`. -/
def stInitial : DBState := ⟨.initial, tobaccoStore⟩

/-- State inside a `with` block. -/
def stOpen : DBState := ⟨.opened, tobaccoStore⟩

/-- State after the `with` block exited: the attribute holds a closed
connection. -/
def stClosed : DBState := ⟨.closedAfter, tobaccoStore⟩

/-- State inside a `with` block with one row already inserted. -/
def stOpen1 : DBState := ⟨.opened, [("tobaccos", { tobaccoTable with rows := [rowA] })]⟩

/-- A three-row fixture without unique columns, one row matching the
condition `aroma = mint` (spec section 8: three rows, one matching). -/
def miniSchema : List (String × String) := [("aroma", "TEXT"), ("potency", "INTEGER")]

/-- The three-row table for the update fixture. -/
def miniTable : Table :=
  ⟨miniSchema, uniqueColsOf miniSchema,
   [[.text "mint", .int 1], [.text "apple", .int 2], [.text "grape", .int 3]]⟩

/-- Open-scope state over the three-row fixture. -/
def stMini : DBState := ⟨.opened, [("tob", miniTable)]⟩

/-! ### Helper lemmas -/

theorem Store.find?_setT {s : Store} {k : String} {t : Table} (t' : Table)
    (h : Store.find? s k = some t) :
    Store.find? (Store.setT s k t') k = some t' := by
  induction s with
  | nil => simp [Store.find?] at h
  | cons hd tl ih =>
      obtain ⟨n, tb⟩ := hd
      by_cases hk : n = k
      · simp [Store.setT, hk, Store.find?]
      · simp only [Store.find?, if_neg hk] at h
        simp only [Store.setT, if_neg hk, Store.find?, if_neg hk]
        exact ih h

theorem condMap_getElem?_not_matching {c : Row → Bool} {f : Row → Row} {rows : List Row}
    {i : Nat} {r : Row} (hget : rows[i]? = some r) (hc : c r = false) :
    (condMap c f rows)[i]? = some r := by
  unfold condMap
  rw [List.getElem?_map, hget]
  simp [hc]

/-! ### Claim theorems -/

/-- Claim C9: at every scoped block the connection is released at scope
exit whether or not the body raised: from a closed state, `__enter__`
moves to the open state; `__exit__` always yields a closed state; and a
full pass through a `with` block ends closed, the body outcome unable to
influence the result. -/
theorem C9_scope_exit_always_closes (s : ConnState) (b : Bool) (_h : connClosed s = true) :
    connStep s .enterEv = .opened ∧
    (∀ s', connClosed (connStep s' .exitEv) = true) ∧
    runScope s b = .closedAfter ∧
    connClosed (runScope s b) = true ∧
    runScope s true = runScope s false := by
  have hb : runScope s b = .closedAfter := by cases b <;> rfl
  exact ⟨rfl, fun _ => rfl, hb, by rw [hb]; rfl, rfl⟩

/-- Witness for C9: starting before the first entry, with a body that
raises. -/
theorem C9_scope_exit_always_closes_witness :
    connClosed .initial = true ∧
    (connStep .initial .enterEv = .opened ∧
     (∀ s', connClosed (connStep s' .exitEv) = true) ∧
     runScope .initial true = .closedAfter ∧
     connClosed (runScope .initial true) = true ∧
     runScope .initial true = runScope .initial false) :=
  ⟨rfl, C9_scope_exit_always_closes .initial true rfl⟩

/-- Claim C10: the two fetchone variants disagree on the empty-fields
edge case.  The legacy query builder treats an absent and an empty
fields string alike (both select `*`), while the parameterized builder
special-cases only `None` and joins an empty fields list into an empty
column list, so the two builders differ on that input. -/
theorem C10_fetchone_empty_fields_divergence :
    (∀ tn w, Legacy.fetchoneQuery tn none w = Legacy.fetchoneQuery tn (some "") w) ∧
    String.intercalate ", " ([] : List String) = "" ∧
    Legacy.fetchoneQuery "tobaccos" (some "") none = "SELECT * FROM tobaccos" ∧
    Param.fetchoneQuery "tobaccos" (some []) none = "SELECT  FROM tobaccos" ∧
    Legacy.fetchoneQuery "tobaccos" (some "") none ≠
      Param.fetchoneQuery "tobaccos" (some []) none ∧
    Param.fetchoneQuery "tobaccos" none none = "SELECT * FROM tobaccos" := by
  exact ⟨fun _ _ => rfl, rfl, rfl, rfl, by decide, rfl⟩

/-- Claim C5 counterexample: two parameterized insert calls with the
same table name and the same (absent) fields argument but different
value tuples build different SQL texts — the placeholder count follows
the number of values, so the claim fails as stated when the value tuples
have different lengths. -/
theorem C5_counterexample :
    Param.insertQuery "tobaccos" [Value.text "a"] none ≠
      Param.insertQuery "tobaccos" [Value.text "a", Value.text "b"] none := by
  decide

/-- Claim C5 (amended): the SQL text built by the parameterized insert
and update depends only on the table name, the field names, and the
number of supplied values — never on the values themselves.  Two calls
agreeing on those (in particular on the value count) build identical
SQL, so values reach the engine only through bound placeholders. -/
theorem C5_sql_text_value_independent
    (tn : String) (fs : Option (List String)) (v1 v2 : List Value)
    (a1 a2 : List (String × Value)) (w1 w2 : Option (List (String × Value)))
    (hlen : v1.length = v2.length)
    (ha : a1.map Prod.fst = a2.map Prod.fst)
    (hw : w1.map (List.map Prod.fst) = w2.map (List.map Prod.fst)) :
    Param.insertQuery tn v1 fs = Param.insertQuery tn v2 fs ∧
    Param.updateQuery tn a1 w1 = Param.updateQuery tn a2 w2 := by
  have hset : ∀ (a : List (String × Value)),
      a.map (fun p => p.1 ++ " = ?") = (a.map Prod.fst).map (fun s => s ++ " = ?") := by
    intro a
    rw [List.map_map]
    rfl
  constructor
  · cases fs <;> simp only [Param.insertQuery, hlen]
  · have hws : (w1.getD []).map Prod.fst = (w2.getD []).map Prod.fst := by
      cases w1 <;> cases w2 <;> simp_all
    unfold Param.updateQuery
    by_cases h1 : w1.getD [] = []
    · have h2 : w2.getD [] = [] := by
        rw [h1] at hws
        exact List.map_eq_nil_iff.mp hws.symm
      rw [if_pos h1, if_pos h2, hset a1, ha, ← hset a2]
    · have h2 : ¬ w2.getD [] = [] := by
        intro h2
        rw [h2] at hws
        exact h1 (List.map_eq_nil_iff.mp hws)
      rw [if_neg h1, if_neg h2, hset a1, ha, ← hset a2, hset (w1.getD []), hws,
        ← hset (w2.getD [])]

/-- Witness for C5 (amended): same shapes, different values, identical
SQL texts. -/
theorem C5_sql_text_value_independent_witness :
    ([Value.int 1].length = [Value.int 2].length) ∧
    ([("aroma", Value.text "x")].map Prod.fst = [("aroma", Value.text "y")].map Prod.fst) ∧
    ((some [("mark", Value.int 1)] : Option (List (String × Value))).map (List.map Prod.fst) =
      (some [("mark", Value.int 7)] : Option (List (String × Value))).map (List.map Prod.fst)) ∧
    (Param.insertQuery "tobaccos" [Value.int 1] none =
       Param.insertQuery "tobaccos" [Value.int 2] none ∧
     Param.updateQuery "tobaccos" [("aroma", Value.text "x")] (some [("mark", Value.int 1)]) =
       Param.updateQuery "tobaccos" [("aroma", Value.text "y")] (some [("mark", Value.int 7)])) :=
  ⟨rfl, rfl, rfl,
   C5_sql_text_value_independent "tobaccos" none [Value.int 1] [Value.int 2]
     [("aroma", Value.text "x")] [("aroma", Value.text "y")]
     (some [("mark", Value.int 1)]) (some [("mark", Value.int 7)]) rfl rfl rfl⟩

/-- Claim C1 (code bug): before the first entry every executor
operation fails with the usage `RuntimeError` and the state is
untouched; but once a scope has exited, `__exit__` has closed the
connection without resetting the attribute to `None`, so the
`ensure_context` guard no longer fires and the failure observed is
sqlite's `ProgrammingError`, not the promised usage error. -/
theorem C1_usage_guard_misses_after_exit :
    (create_table stInitial "tobaccos" tobaccoSchema =
       (stInitial, .error (.runtimeError "Database must be used within a \x27with\x27 statement."))) ∧
    (Legacy.fetchone stInitial "tobaccos" none =
       (stInitial, .error (.runtimeError "Database must be used within a \x27with\x27 statement."))) ∧
    (Legacy.fetchmany stInitial "tobaccos" none =
       (stInitial, .error (.runtimeError "Database must be used within a \x27with\x27 statement."))) ∧
    (Legacy.update stInitial "tobaccos" id none =
       (stInitial, .error (.runtimeError "Database must be used within a \x27with\x27 statement."))) ∧
    (Legacy.insert stInitial "tobaccos" rowA none =
       (stInitial, .error (.runtimeError "Database must be used within a \x27with\x27 statement."))) ∧
    connStep (connStep .initial .enterEv) .exitEv = .closedAfter ∧
    (Legacy.fetchone stClosed "tobaccos" none =
       (stClosed, .error (.programmingError "Cannot operate on a closed database."))) ∧
    (∀ msg, (Legacy.fetchone stClosed "tobaccos" none).2 ≠ .error (.runtimeError msg)) := by
  refine ⟨rfl, rfl, rfl, rfl, rfl, rfl, rfl, ?_⟩
  intro msg h
  have h' : (Except.error (DBError.programmingError "Cannot operate on a closed database.") :
      Except DBError (Option Row)) = Except.error (DBError.runtimeError msg) := h
  injection h' with h''
  exact DBError.noConfusion h''

/-- Claim C2 (code bug): inside an open scope the parameterized `update`
never returns the affected-row count.  `Database.execute` returns
`None`, so the final `return cursor.rowcount` raises `AttributeError` —
after the commit has already applied the row changes.  Evaluated here on
a one-row table. -/
theorem C2_update_rowcount_attribute_error :
    (Param.update stOpen1 "tobaccos" [("aroma", Value.text "vanilla")] none).2 =
      .error (.attributeError "\x27NoneType\x27 object has no attribute \x27rowcount\x27") ∧
    ((Param.update stOpen1 "tobaccos" [("aroma", Value.text "vanilla")] none).1.store.find?
        "tobaccos" =
      some { tobaccoTable with
             rows := [[.text "Brand A", .text "vanilla", .text "sweet", .int 3]] }) ∧
    (∀ n : Int,
      (Param.update stOpen1 "tobaccos" [("aroma", Value.text "vanilla")] none).2 ≠ .ok n) := by
  refine ⟨rfl, rfl, ?_⟩
  intro n h
  have h' : (Except.error
        (DBError.attributeError "\x27NoneType\x27 object has no attribute \x27rowcount\x27") :
      Except DBError Int) = Except.ok n := h
  exact Except.noConfusion h'

theorem condMap_of_true {c : Row → Bool} {f : Row → Row} {rows : List Row}
    (hc : ∀ r, c r = true) : condMap c f rows = rows.map f := by
  unfold condMap
  exact List.map_congr_left fun r _ => by rw [hc r]; rfl

/-- Claim C3: in both variants, inside an open scope, an insert that
hits a uniqueness violation does not propagate the exception — it
returns a descriptive conflict string and leaves the state untouched
(the commit is skipped) — while an insert with no conflict appends the
row, commits, and returns the `None` sentinel.  The return value is a
string exactly when the violation occurred and `None` exactly when the
insert succeeded. -/
theorem C3_insert_conflict_indicator
    (st : DBState) (tn : String) (t : Table) (row : Row) (fields : Option (List String))
    (hconn : st.conn = .opened) (ht : st.store.find? tn = some t)
    (har : insertArityOk t row fields = true) :
    (insertConflicts t (storedRow t row fields) = true →
       Legacy.insert st tn row fields =
         (st, .ok (some (renderTuple row ++ " already exists\n"))) ∧
       Param.insert st tn row fields =
         (st, .ok (some (renderTuple row ++ " already exists: UNIQUE constraint failed\n")))) ∧
    (insertConflicts t (storedRow t row fields) = false →
       (Legacy.insert st tn row fields).2 = .ok none ∧
       (Legacy.insert st tn row fields).1.store.find? tn =
         some { t with rows := t.rows ++ [storedRow t row fields] } ∧
       (Param.insert st tn row fields).2 = .ok none ∧
       (Param.insert st tn row fields).1.store.find? tn =
         some { t with rows := t.rows ++ [storedRow t row fields] }) := by
  obtain ⟨conn, store⟩ := st
  cases hconn
  constructor
  · intro hc
    constructor <;> simp [Legacy.insert, Param.insert, execGuard, ht, har, hc]
  · intro hc
    refine ⟨?_, ?_, ?_, ?_⟩ <;>
      simp [Legacy.insert, Param.insert, execGuard, ht, har, hc, Store.find?_setT _ ht]

/-- Claim C4: after a successful insert of a row under a unique key,
inserting any subsequent row that carries the same value in that unique
column returns the conflict indicator and leaves the table contents —
hence the row count — unchanged: the error path skips the commit and
creates no duplicate.  Both variants behave this way on the state the
first insert produced. -/
theorem C4_duplicate_insert_leaves_table_unchanged
    (st : DBState) (tn : String) (t : Table) (row row2 : Row) (i : Nat)
    (hconn : st.conn = .opened) (ht : st.store.find? tn = some t)
    (har : row.length = t.schema.length)
    (hlen2 : row2.length = t.schema.length)
    (hi : i ∈ t.uniqueCols)
    (hkey : row2[i]? = row[i]?)
    (hfirst : (Legacy.insert st tn row none).2 = .ok none) :
    ((Legacy.insert st tn row none).1.store.find? tn =
       some { t with rows := t.rows ++ [row] }) ∧
    (Legacy.insert (Legacy.insert st tn row none).1 tn row2 none =
       ((Legacy.insert st tn row none).1,
        .ok (some (renderTuple row2 ++ " already exists\n")))) ∧
    (Param.insert (Legacy.insert st tn row none).1 tn row2 none =
       ((Legacy.insert st tn row none).1,
        .ok (some (renderTuple row2 ++ " already exists: UNIQUE constraint failed\n")))) := by
  obtain ⟨conn, store⟩ := st
  cases hconn
  have ht' : Store.find? store tn = some t := ht
  have har' : insertArityOk t row none = true := by
    simp [insertArityOk, har]
  have hrow : storedRow t row none = row := rfl
  have hconf : insertConflicts t row = false := by
    by_contra hc
    rw [Bool.not_eq_false] at hc
    rw [show Legacy.insert ⟨.opened, store⟩ tn row none =
        (⟨.opened, store⟩, .ok (some (renderTuple row ++ " already exists\n"))) from by
      simp [Legacy.insert, execGuard, ht', har', hrow, hc]] at hfirst
    exact Option.noConfusion (Except.ok.inj hfirst)
  have hins : Legacy.insert ⟨.opened, store⟩ tn row none =
      (⟨.opened, Store.setT store tn { t with rows := t.rows ++ [row] }⟩, .ok none) := by
    simp [Legacy.insert, execGuard, ht', har', hrow, hconf]
  have hfind : Store.find? (Store.setT store tn { t with rows := t.rows ++ [row] }) tn =
      some { t with rows := t.rows ++ [row] } := Store.find?_setT _ ht'
  have hconf2 : insertConflicts { t with rows := t.rows ++ [row] } row2 = true := by
    simp only [insertConflicts, List.any_eq_true]
    exact ⟨i, hi, row, List.mem_append_right _ (List.mem_singleton.mpr rfl), by simp [hkey]⟩
  have har2 : insertArityOk { t with rows := t.rows ++ [row] } row2 none = true := by
    simp [insertArityOk, hlen2]
  refine ⟨?_, ?_, ?_⟩
  · rw [hins]
    exact hfind
  · rw [hins]
    simp [Legacy.insert, execGuard, hfind, hconf2, har2, storedRow]
  · rw [hins]
    simp [Param.insert, execGuard, hfind, hconf2, har2, storedRow]

/-- Claim C7: with a non-empty schema, `create_table` succeeds and a
second identical call succeeds again while leaving the state unchanged
(CREATE TABLE IF NOT EXISTS); with an empty schema it raises
`ValueError` before executing any SQL, whatever the state. -/
theorem C7_create_table_idempotent
    (st : DBState) (tn : String) (cols : List (String × String))
    (hconn : st.conn = .opened) (hcols : cols ≠ []) :
    (create_table st tn cols).2 = .ok () ∧
    (create_table (create_table st tn cols).1 tn cols =
       ((create_table st tn cols).1, .ok ())) ∧
    (∀ (st' : DBState) (tn' : String),
       create_table st' tn' [] =
         (st', .error (.valueError "Columns dictionary cannot be empty."))) := by
  obtain ⟨conn, store⟩ := st
  cases hconn
  refine ⟨?_, ?_, fun st' tn' => rfl⟩
  · cases hfind : Store.find? store tn with
    | none => simp [create_table, hcols, execGuard, hfind]
    | some t0 => simp [create_table, hcols, execGuard, hfind]
  · cases hfind : Store.find? store tn with
    | none =>
        have h1 : create_table ⟨.opened, store⟩ tn cols =
            (⟨.opened, (tn, ⟨cols, uniqueColsOf cols, []⟩) :: store⟩, .ok ()) := by
          simp [create_table, hcols, execGuard, hfind]
        rw [h1]
        simp [create_table, hcols, execGuard, Store.find?]
    | some t0 =>
        have h1 : create_table ⟨.opened, store⟩ tn cols = (⟨.opened, store⟩, .ok ()) := by
          simp [create_table, hcols, execGuard, hfind]
        rw [h1]
        simp [create_table, hcols, execGuard, hfind]

/-- Witness for C3 at the section-8 scenario: empty `tobaccos` table,
inserting the Brand A row with no fields argument. -/
theorem C3_insert_conflict_indicator_witness :
    stOpen.conn = .opened ∧
    stOpen.store.find? "tobaccos" = some tobaccoTable ∧
    insertArityOk tobaccoTable rowA none = true ∧
    ((insertConflicts tobaccoTable (storedRow tobaccoTable rowA none) = true →
        Legacy.insert stOpen "tobaccos" rowA none =
          (stOpen, .ok (some (renderTuple rowA ++ " already exists\n"))) ∧
        Param.insert stOpen "tobaccos" rowA none =
          (stOpen, .ok (some (renderTuple rowA ++ " already exists: UNIQUE constraint failed\n")))) ∧
     (insertConflicts tobaccoTable (storedRow tobaccoTable rowA none) = false →
        (Legacy.insert stOpen "tobaccos" rowA none).2 = .ok none ∧
        (Legacy.insert stOpen "tobaccos" rowA none).1.store.find? "tobaccos" =
          some { tobaccoTable with
                 rows := tobaccoTable.rows ++ [storedRow tobaccoTable rowA none] } ∧
        (Param.insert stOpen "tobaccos" rowA none).2 = .ok none ∧
        (Param.insert stOpen "tobaccos" rowA none).1.store.find? "tobaccos" =
          some { tobaccoTable with
                 rows := tobaccoTable.rows ++ [storedRow tobaccoTable rowA none] })) :=
  ⟨rfl, rfl, rfl,
   C3_insert_conflict_indicator stOpen "tobaccos" tobaccoTable rowA none rfl rfl rfl⟩

/-- Witness for C4 at the section-8 scenario: insert Brand A into the
empty `tobaccos` table, then insert a different row that reuses the
unique mark `"Brand A"`, in each variant. -/
theorem C4_duplicate_insert_leaves_table_unchanged_witness :
    stOpen.conn = .opened ∧
    stOpen.store.find? "tobaccos" = some tobaccoTable ∧
    rowA.length = tobaccoTable.schema.length ∧
    rowA2.length = tobaccoTable.schema.length ∧
    (0 : Nat) ∈ tobaccoTable.uniqueCols ∧
    rowA2[0]? = rowA[0]? ∧
    (Legacy.insert stOpen "tobaccos" rowA none).2 = .ok none ∧
    (((Legacy.insert stOpen "tobaccos" rowA none).1.store.find? "tobaccos" =
        some { tobaccoTable with rows := tobaccoTable.rows ++ [rowA] }) ∧
     (Legacy.insert (Legacy.insert stOpen "tobaccos" rowA none).1 "tobaccos" rowA2 none =
        ((Legacy.insert stOpen "tobaccos" rowA none).1,
         .ok (some (renderTuple rowA2 ++ " already exists\n")))) ∧
     (Param.insert (Legacy.insert stOpen "tobaccos" rowA none).1 "tobaccos" rowA2 none =
        ((Legacy.insert stOpen "tobaccos" rowA none).1,
         .ok (some (renderTuple rowA2 ++ " already exists: UNIQUE constraint failed\n"))))) :=
  ⟨rfl, rfl, rfl, rfl, by decide, rfl, rfl,
   C4_duplicate_insert_leaves_table_unchanged stOpen "tobaccos" tobaccoTable rowA rowA2 0
     rfl rfl rfl rfl (by decide) rfl rfl⟩

/-- Witness for C7: create `tobaccos` twice with the section-8 schema
inside an open scope. -/
theorem C7_create_table_idempotent_witness :
    stOpen.conn = .opened ∧
    tobaccoSchema ≠ [] ∧
    ((create_table stOpen "tobaccos" tobaccoSchema).2 = .ok () ∧
     (create_table (create_table stOpen "tobaccos" tobaccoSchema).1 "tobaccos" tobaccoSchema =
        ((create_table stOpen "tobaccos" tobaccoSchema).1, .ok ())) ∧
     (∀ (st' : DBState) (tn' : String),
        create_table st' tn' [] =
          (st', .error (.valueError "Columns dictionary cannot be empty.")))) :=
  ⟨rfl, by decide, C7_create_table_idempotent stOpen "tobaccos" tobaccoSchema rfl (by decide)⟩

/-- Claim C8: with an open scope and an existing table, the legacy
`fetchmany` returns the first at-most-10,000 matching rows — exactly
the first 10,000 when more rows match — while the parameterized
`fetchall` returns the full result set; when nothing matches both
return the empty list, and neither raises. -/
theorem C8_fetch_batch_bounds
    (st : DBState) (tn : String) (t : Table) (c : Option (Row → Bool))
    (hconn : st.conn = .opened) (ht : st.store.find? tn = some t) :
    (Legacy.fetchmany st tn c).2 = .ok ((matchingRows t c).take 10000) ∧
    (Param.fetchall st tn c false).2 = .ok (matchingRows t c) ∧
    (10000 < (matchingRows t c).length →
       ((matchingRows t c).take 10000).length = 10000 ∧
       (matchingRows t c).take 10000 ++ (matchingRows t c).drop 10000 = matchingRows t c) ∧
    (matchingRows t c = [] →
       (Legacy.fetchmany st tn c).2 = .ok [] ∧ (Param.fetchall st tn c false).2 = .ok []) := by
  obtain ⟨conn, store⟩ := st
  cases hconn
  have ht' : Store.find? store tn = some t := ht
  refine ⟨?_, ?_, ?_, ?_⟩
  · simp [Legacy.fetchmany, execGuard, ht']
  · simp [Param.fetchall, execGuard, ht']
  · intro hlen
    refine ⟨by rw [List.length_take]; omega, List.take_append_drop _ _⟩
  · intro hempty
    constructor
    · simp [Legacy.fetchmany, execGuard, ht', hempty]
    · simp [Param.fetchall, execGuard, ht', hempty]

/-- Witness for C8 over the three-row fixture with no condition. -/
theorem C8_fetch_batch_bounds_witness :
    stMini.conn = .opened ∧
    stMini.store.find? "tob" = some miniTable ∧
    ((Legacy.fetchmany stMini "tob" none).2 = .ok ((matchingRows miniTable none).take 10000) ∧
     (Param.fetchall stMini "tob" none false).2 = .ok (matchingRows miniTable none) ∧
     (10000 < (matchingRows miniTable none).length →
        ((matchingRows miniTable none).take 10000).length = 10000 ∧
        (matchingRows miniTable none).take 10000 ++ (matchingRows miniTable none).drop 10000 =
          matchingRows miniTable none) ∧
     (matchingRows miniTable none = [] →
        (Legacy.fetchmany stMini "tob" none).2 = .ok [] ∧
        (Param.fetchall stMini "tob" none false).2 = .ok [])) :=
  ⟨rfl, rfl, C8_fetch_batch_bounds stMini "tob" miniTable none rfl rfl⟩

/-- Claim C6: in both variants, `update` with the condition omitted
transforms every existing row of the table, and `update` with a
condition transforms exactly the matching rows, leaving non-matching
rows unchanged.  The conclusions describe the committed store; on the
parameterized success path the commit happens even though the method
then raises (see C2). -/
theorem C6_update_condition_scope
    (st : DBState) (tn : String) (t : Table)
    (f : Row → Row) (c : Row → Bool)
    (pvals : List (String × Value)) (pws : List (String × Value))
    (hconn : st.conn = .opened) (ht : st.store.find? tn = some t) :
    (violatesUniqueCols t.uniqueCols (t.rows.map f) = false →
       (Legacy.update st tn f none).1.store.find? tn =
         some { t with rows := t.rows.map f } ∧
       (Legacy.update st tn f none).2 = .ok ()) ∧
    (violatesUniqueCols t.uniqueCols (condMap c f t.rows) = false →
       (Legacy.update st tn f (some c)).1.store.find? tn =
         some { t with rows := condMap c f t.rows } ∧
       (∀ (i : Nat) (r : Row), t.rows[i]? = some r → c r = false →
          (condMap c f t.rows)[i]? = some r)) ∧
    (pvals ≠ [] →
     (pvals.all fun p => (colIndex? t.schema p.1).isSome) = true →
     (pws.all fun p => (colIndex? t.schema p.1).isSome) = true →
       (violatesUniqueCols t.uniqueCols (t.rows.map (applyPairs t.schema pvals)) = false →
          (Param.update st tn pvals none).1.store.find? tn =
            some { t with rows := t.rows.map (applyPairs t.schema pvals) }) ∧
       (violatesUniqueCols t.uniqueCols
           (condMap (pairsHold t.schema pws) (applyPairs t.schema pvals) t.rows) = false →
          (Param.update st tn pvals (some pws)).1.store.find? tn =
            some { t with
                   rows := condMap (pairsHold t.schema pws) (applyPairs t.schema pvals) t.rows } ∧
          (∀ (i : Nat) (r : Row), t.rows[i]? = some r →
             pairsHold t.schema pws r = false →
             (condMap (pairsHold t.schema pws) (applyPairs t.schema pvals) t.rows)[i]? =
               some r))) := by
  obtain ⟨conn, store⟩ := st
  cases hconn
  have ht' : Store.find? store tn = some t := ht
  have hnone : ∀ r, condHolds none r = true := fun _ => rfl
  refine ⟨?_, ?_, ?_⟩
  · intro hv
    have hv' : violatesUniqueCols t.uniqueCols (condMap (condHolds none) f t.rows) = false := by
      rw [condMap_of_true hnone]
      exact hv
    have h1 : Legacy.update ⟨.opened, store⟩ tn f none =
        (⟨.opened, Store.setT store tn { t with rows := condMap (condHolds none) f t.rows }⟩,
         .ok ()) := by
      simp [Legacy.update, execGuard, ht', hv']
    rw [h1]
    refine ⟨?_, rfl⟩
    have h2 := Store.find?_setT { t with rows := condMap (condHolds none) f t.rows } ht'
    rw [condMap_of_true hnone] at h2
    exact h2
  · intro hv
    have hv' : violatesUniqueCols t.uniqueCols (condMap (condHolds (some c)) f t.rows) = false :=
      hv
    have h1 : Legacy.update ⟨.opened, store⟩ tn f (some c) =
        (⟨.opened, Store.setT store tn { t with rows := condMap (condHolds (some c)) f t.rows }⟩,
         .ok ()) := by
      simp [Legacy.update, execGuard, ht', hv']
    rw [h1]
    refine ⟨?_, fun i r hget hc => condMap_getElem?_not_matching hget hc⟩
    exact Store.find?_setT { t with rows := condMap (condHolds (some c)) f t.rows } ht'
  · intro hne hvalid hwvalid
    have htrue : ∀ r, pairsHold t.schema [] r = true := fun _ => rfl
    constructor
    · intro hv
      have hv' : violatesUniqueCols t.uniqueCols
          (condMap (pairsHold t.schema []) (applyPairs t.schema pvals) t.rows) = false := by
        rw [condMap_of_true htrue]
        exact hv
      have h1 : Param.update ⟨.opened, store⟩ tn pvals none =
          (⟨.opened,
            Store.setT store tn
              { t with
                rows := condMap (pairsHold t.schema []) (applyPairs t.schema pvals) t.rows }⟩,
           .error (.attributeError
             "\x27NoneType\x27 object has no attribute \x27rowcount\x27")) := by
        simp [Param.update, execGuard, ht', hne, hvalid, hv']
      rw [h1]
      have h2 := Store.find?_setT
        { t with
          rows := condMap (pairsHold t.schema []) (applyPairs t.schema pvals) t.rows } ht'
      rw [condMap_of_true htrue] at h2
      exact h2
    · intro hv
      have h1 : Param.update ⟨.opened, store⟩ tn pvals (some pws) =
          (⟨.opened,
            Store.setT store tn
              { t with
                rows := condMap (pairsHold t.schema pws) (applyPairs t.schema pvals) t.rows }⟩,
           .error (.attributeError
             "\x27NoneType\x27 object has no attribute \x27rowcount\x27")) := by
        simp [Param.update, execGuard, ht', hne, hvalid, hwvalid, hv]
      rw [h1]
      refine ⟨?_, fun i r hget hc => condMap_getElem?_not_matching hget hc⟩
      exact Store.find?_setT
        { t with
          rows := condMap (pairsHold t.schema pws) (applyPairs t.schema pvals) t.rows } ht'

/-- Witness for C6 over the three-row fixture: set the potency column
to 9, with no condition and with the `aroma = mint` condition that one
of the three rows matches. -/
theorem C6_update_condition_scope_witness :
    stMini.conn = .opened ∧
    stMini.store.find? "tob" = some miniTable ∧
    ((violatesUniqueCols miniTable.uniqueCols
        (miniTable.rows.map fun r => r.set 1 (Value.int 9)) = false →
        (Legacy.update stMini "tob" (fun r => r.set 1 (Value.int 9)) none).1.store.find? "tob" =
          some { miniTable with rows := miniTable.rows.map fun r => r.set 1 (Value.int 9) } ∧
        (Legacy.update stMini "tob" (fun r => r.set 1 (Value.int 9)) none).2 = .ok ()) ∧
     (violatesUniqueCols miniTable.uniqueCols
        (condMap (fun r => decide (r[0]? = some (Value.text "mint")))
          (fun r => r.set 1 (Value.int 9)) miniTable.rows) = false →
        (Legacy.update stMini "tob" (fun r => r.set 1 (Value.int 9))
            (some (fun r => decide (r[0]? = some (Value.text "mint"))))).1.store.find? "tob" =
          some { miniTable with
                 rows := condMap (fun r => decide (r[0]? = some (Value.text "mint")))
                   (fun r => r.set 1 (Value.int 9)) miniTable.rows } ∧
        (∀ (i : Nat) (r : Row), miniTable.rows[i]? = some r →
           decide (r[0]? = some (Value.text "mint")) = false →
           (condMap (fun r => decide (r[0]? = some (Value.text "mint")))
             (fun r => r.set 1 (Value.int 9)) miniTable.rows)[i]? = some r)) ∧
     ([("potency", Value.int 9)] ≠ [] →
      (([("potency", Value.int 9)] : List (String × Value)).all fun p =>
          (colIndex? miniTable.schema p.1).isSome) = true →
      (([("aroma", Value.text "mint")] : List (String × Value)).all fun p =>
          (colIndex? miniTable.schema p.1).isSome) = true →
        (violatesUniqueCols miniTable.uniqueCols
            (miniTable.rows.map (applyPairs miniTable.schema [("potency", Value.int 9)])) =
              false →
           (Param.update stMini "tob" [("potency", Value.int 9)] none).1.store.find? "tob" =
             some { miniTable with
                    rows := miniTable.rows.map
                      (applyPairs miniTable.schema [("potency", Value.int 9)]) }) ∧
        (violatesUniqueCols miniTable.uniqueCols
            (condMap (pairsHold miniTable.schema [("aroma", Value.text "mint")])
              (applyPairs miniTable.schema [("potency", Value.int 9)]) miniTable.rows) =
              false →
           (Param.update stMini "tob" [("potency", Value.int 9)]
               (some [("aroma", Value.text "mint")])).1.store.find? "tob" =
             some { miniTable with
                    rows := condMap (pairsHold miniTable.schema [("aroma", Value.text "mint")])
                      (applyPairs miniTable.schema [("potency", Value.int 9)]) miniTable.rows } ∧
           (∀ (i : Nat) (r : Row), miniTable.rows[i]? = some r →
              pairsHold miniTable.schema [("aroma", Value.text "mint")] r = false →
              (condMap (pairsHold miniTable.schema [("aroma", Value.text "mint")])
                (applyPairs miniTable.schema [("potency", Value.int 9)])
                miniTable.rows)[i]? = some r)))) :=
  ⟨rfl, rfl,
   C6_update_condition_scope stMini "tob" miniTable (fun r => r.set 1 (Value.int 9))
     (fun r => decide (r[0]? = some (Value.text "mint")))
     [("potency", Value.int 9)] [("aroma", Value.text "mint")] rfl rfl⟩

end HookahDB
